import Mathlib

/-!
Verification of the per-site media extractors (Wrestle Universe, Weverse,
Vimeo, Go).  Network responses, third-party library primitives (HMAC-SHA1,
base64, RSA-OAEP, JWT decoding) and regex matching are modelled as explicit
parameters; the control flow, request construction, truthiness tests and
record construction are translated directly from the Python source.
-/

namespace YtDlp

/-- Python truthiness of an optional string: `None` and the empty string are
falsy, every other string is truthy. -/
def truthyOptStr : Option String → Bool
  | Option.none => false
  | some s => s ≠ ""

/-- Python `f-string` interpolation of a possibly-`None` value. -/
def pyStr : Option String → String
  | Option.none => "None"
  | some s => s

/-- Lookup in a Python-style dict represented as a write list: the last write
to a key wins. -/
def qget (d : List (String × String)) (k : String) : Option String :=
  ((d.filter fun p => p.1 = k).getLast?).map fun p => p.2

namespace WrestleUniverse

/-- Errors raised by the Wrestle Universe authentication helpers:
`raise_login_required` from `_get_token_cookie`, and the three
`ExtractorError` messages of `_raise_proper_auth_error`. -/
inductive AuthError
  | loginRequired
  | tokenProblem
  | expiredToken
  | noAccess
  deriving DecidableEq, Repr

/-- Model of `WrestleUniverseBaseIE._get_token_cookie`: the `token` cookie for
`wrestle-universe.com`, login-required when the cookie is absent or its value
is empty. -/
def get_token_cookie (cookie : Option String) : Except AuthError String :=
  match cookie with
  | Option.none => Except.error AuthError.loginRequired
  | some v => if v = "" then Except.error AuthError.loginRequired else Except.ok v

/-- Model of `WrestleUniverseBaseIE._raise_proper_auth_error`.  `expOf`
abstracts `traverse_obj(jwt_decode_hs256(token), ('exp', {int_or_none}))`:
the `exp` claim of the JWT read as an integer, `none` when unreadable.
The Python test `if not exp` is falsy for both `None` and `0`. -/
def raise_proper_auth_error (expOf : String → Option Int) (cookie : Option String)
    (now : Int) : AuthError :=
  match get_token_cookie cookie with
  | Except.error e => e
  | Except.ok tok =>
    match expOf tok with
    | Option.none => AuthError.tokenProblem
    | some exp =>
      if exp = 0 then AuthError.tokenProblem
      else if exp ≤ now then AuthError.expiredToken
      else AuthError.noAccess

/-- Model of `WrestleUniverseBaseIE._download_metadata`.  `apiMetadata` is the
non-fatal metadata API call (`none` when the request failed or returned a
falsy value is covered by `none` / `some []`); `pageFallback` is the webpage
download plus `traverse_obj(nextjs_data, ('props', 'pageProps', props_key,
{dict}))`, which can itself fail (the webpage download is fatal). -/
def download_metadata (apiMetadata : Option (List (String × String)))
    (pageFallback : Except String (Option (List (String × String)))) :
    Except String (List (String × String)) :=
  match apiMetadata with
  | some m =>
    if m.isEmpty then
      match pageFallback with
      | Except.error e => Except.error e
      | Except.ok lk => Except.ok (lk.getD [])
    else Except.ok m
  | Option.none =>
    match pageFallback with
    | Except.error e => Except.error e
    | Except.ok lk => Except.ok (lk.getD [])

/-- Shape of the `hls` object in the `:watchArchive` response of the PPV
extractor. -/
structure HlsData where
  urls : List String
  chromecastUrls : List String
  key : Option String
  iv : Option String
  encryptType : Option Int
  deriving DecidableEq, Repr

/-- Shape of the `:watchArchive` response used by `WrestleUniversePPVIE`. -/
structure PpvWatchData where
  canWatch : Bool
  hls : Option HlsData
  urls : List String
  chromecastUrls : List String
  deriving DecidableEq, Repr

/-- Shape of the `:watch` response used by `WrestleUniverseVODIE`. -/
structure VodWatchData where
  canWatch : Bool
  protocolHlsUrl : Option String
  chromecastUrls : List String
  deriving DecidableEq, Repr

/-- Fields of one format returned by `_extract_m3u8_formats` that the PPV
extractor touches. -/
structure HlsFormat where
  url : String
  format_id : Option String
  tbr : Option Int
  deriving DecidableEq, Repr

/-- Model of the PPV bitrate adjustment loop: `if f.get('tbr'): f['tbr'] =
f['tbr'] // 4` (Python `//` is floor division; `0` is falsy). -/
def ppv_adjust_formats (formats : List HlsFormat) : List HlsFormat :=
  formats.map fun f =>
    match f.tbr with
    | some t => if t ≠ 0 then { f with tbr := some (Int.fdiv t 4) } else f
    | Option.none => f

/-- Model of the `decrypt` closure built by `_call_public_key_api`:
`None`/empty input maps to `None`; otherwise base64-decode then RSA-OAEP
decrypt, raising `ExtractorError` when either step fails.  `b64decode`
abstracts `base64.b64decode` (`none` = `binascii.Error`), `oaepDecrypt`
abstracts `cipher.decrypt` plus `.decode()` (`none` = `ValueError`). -/
def decrypt (b64decode : String → Option (List Nat))
    (oaepDecrypt : List Nat → Option String) (data : Option String) :
    Except String (Option String) :=
  match data with
  | Option.none => Except.ok Option.none
  | some s =>
    if s = "" then Except.ok Option.none
    else
      match b64decode s with
      | Option.none => Except.error "Could not decrypt data"
      | some bs =>
        match oaepDecrypt bs with
        | Option.none => Except.error "Could not decrypt data"
        | some out => Except.ok (some out)

/-- Abstraction of `RSA.generate(bits)` together with the OAEP(SHA-1) cipher
built from it: the DER export of the public key, and the decryption map of
the private key. -/
structure RsaKeyPair where
  publicKeyDer : List Nat
  oaepSha1Decrypt : List Nat → Option String

/-- Request body and route sent by `_call_public_key_api`. -/
structure PublicKeyApiRequest where
  videoId : String
  param : String
  auth : Bool
  token : String
  method : Int
  deriving DecidableEq, Repr

/-- Model of `WrestleUniversePPVIE._call_public_key_api`: generate a 2048-bit
RSA key pair, send the base64 of the DER public key as `token` with
`method = 1` on the `:watchArchive` route, and return the decrypt closure. -/
def call_public_key_api (generate : Nat → RsaKeyPair) (b64encode : List Nat → String)
    (b64decode : String → Option (List Nat)) (videoId : String) :
    PublicKeyApiRequest × (Option String → Except String (Option String)) :=
  let pk := generate 2048
  ({ videoId := videoId, param := ":watchArchive", auth := true,
     token := b64encode pk.publicKeyDer, method := 1 },
   decrypt b64decode pk.oaepSha1Decrypt)

/-- Navigation `traverse_obj(video_data, ('hls', field))` for the PPV watch
response. -/
def hls_field (d : PpvWatchData) (f : HlsData → Option String) : Option String :=
  match d.hls with
  | some h => f h
  | Option.none => Option.none

/-- Navigation `traverse_obj(video_data, ('hls', 'encryptType', {int}))`. -/
def hls_encrypt_type (d : PpvWatchData) : Option Int :=
  match d.hls with
  | some h => h.encryptType
  | Option.none => Option.none

/-- First URL of `traverse_obj(video_data, (('hls', None),
('urls', 'chromecastUrls'), ..., {url_or_none}), get_all=False)`; `urlOk`
abstracts `url_or_none`. -/
def ppv_hls_url (urlOk : String → Bool) (d : PpvWatchData) : Option String :=
  (((match d.hls with
     | some h => h.urls ++ h.chromecastUrls
     | Option.none => []) ++ d.urls ++ d.chromecastUrls).filter urlOk).head?

/-- Errors that abort a Wrestle Universe extraction after the watch API call. -/
inductive ExtractError
  | auth (e : AuthError)
  | noFormats (msg : String)
  | decryptFailed (msg : String)
  deriving DecidableEq, Repr

/-- Fields of the record returned by `WrestleUniversePPVIE._real_extract`
that are fixed by the watch response (the `**info` metadata merge is handled
separately); `warned` records whether `report_warning` fired. -/
structure PpvInfo where
  id : String
  formats : List HlsFormat
  hls_aes_key : Option String
  hls_aes_iv : Option String
  warned : Bool
  deriving DecidableEq, Repr

/-- Model of the tail of `WrestleUniversePPVIE._real_extract`, from the
`canWatch` check to the returned record.  `rawFormats` stands for the result
of `_extract_m3u8_formats` on the chosen HLS URL.  The `{decrypt}` step of
`traverse_obj` applies `decrypt` only to a present value and propagates its
`ExtractorError`; an absent `hls.key`/`hls.iv` gives `none`, exactly what
`decrypt` returns on falsy input. -/
def ppv_real_extract_tail (b64decode : String → Option (List Nat))
    (oaepDecrypt : List Nat → Option String) (expOf : String → Option Int)
    (cookie : Option String) (now : Int) (urlOk : String → Bool)
    (videoData : PpvWatchData) (rawFormats : List HlsFormat) (videoId : String) :
    Except ExtractError PpvInfo :=
  if !videoData.canWatch then
    Except.error (ExtractError.auth (raise_proper_auth_error expOf cookie now))
  else
    match ppv_hls_url urlOk videoData with
    | Option.none => Except.error (ExtractError.noFormats "No supported formats found")
    | some _ =>
      let formats := ppv_adjust_formats rawFormats
      match decrypt b64decode oaepDecrypt (hls_field videoData fun h => h.key) with
      | Except.error e => Except.error (ExtractError.decryptFailed e)
      | Except.ok k =>
        let warned := !truthyOptStr k && ((hls_encrypt_type videoData).getD 0 > 0)
        match decrypt b64decode oaepDecrypt (hls_field videoData fun h => h.iv) with
        | Except.error e => Except.error (ExtractError.decryptFailed e)
        | Except.ok ivVal =>
          Except.ok { id := videoId, formats := formats, hls_aes_key := k,
                      hls_aes_iv := ivVal, warned := warned }

/-- Model of the `canWatch` gate of `WrestleUniverseVODIE._real_extract`:
when the watch response has no truthy `canWatch`, `_raise_proper_auth_error`
is raised. -/
def vod_check_watch (expOf : String → Option Int) (cookie : Option String)
    (now : Int) (videoData : VodWatchData) : Except AuthError Unit :=
  if !videoData.canWatch then
    Except.error (raise_proper_auth_error expOf cookie now)
  else Except.ok ()

end WrestleUniverse

/-- Values stored in the info dict returned by `_real_extract`; only the
`id` and `formats` entries have a shape the claims inspect, the remaining
metadata values are carried opaquely. -/
inductive InfoVal
  | vnull
  | vstr (s : String)
  | vint (n : Int)
  | vstrs (xs : List String)
  | vformats (fs : List WrestleUniverse.HlsFormat)
  | vdata (tag : String)
  deriving DecidableEq, Repr

/-- Lookup in a Python dict built as a write list (a dict literal followed by
a `**info` merge appends the merged entries): the last write to a key wins. -/
def dget (d : List (String × InfoVal)) (k : String) : Option InfoVal :=
  ((d.filter fun p => p.1 = k).getLast?).map fun p => p.2

namespace WrestleUniverse

/-- Keys produced by the `traverse_obj` metadata mapping in
`WrestleUniverseVODIE._real_extract`; the dict-spec of `traverse_obj` can
yield no key outside this list. -/
def vod_info_keys : List String :=
  ["title", "description", "channel", "location", "timestamp", "thumbnail",
   "cast", "chapters", "duration"]

/-- Record returned by `WrestleUniverseVODIE._real_extract`: the dict literal
`{'id': ..., 'formats': ...}` merged with `**info`. -/
def vod_result (videoId : String) (formats : List HlsFormat)
    (info : List (String × InfoVal)) : List (String × InfoVal) :=
  [("id", InfoVal.vstr videoId), ("formats", InfoVal.vformats formats)] ++ info

end WrestleUniverse

namespace Weverse

/-- Embedded HMAC key of `WeverseIE._call_api` (the Python bytes literal
`b'1b9cb6378d959b45714bec49971ade22e6e24e42'`). -/
def WMD_KEY : String := "1b9cb6378d959b45714bec49971ade22e6e24e42"

/-- Request assembled by `WeverseIE._call_api`. -/
structure SignedRequest where
  url : String
  headers : List (String × String)
  query : List (String × String)
  deriving DecidableEq, Repr

/-- Model of `WeverseIE._call_api`.  `hmacSha1` abstracts
`hmac.HMAC(key, msg, sha1).digest()`, `b64encode` abstracts
`base64.b64encode(...).decode()`; `ts` is `int(time.time() * 1000)`.  The
signed message is the first 255 characters of the URL followed by the
millisecond timestamp. -/
def call_api (hmacSha1 : String → String → List Nat) (b64encode : List Nat → String)
    (authToken deviceId : Option String) (url : String) (ts : Nat)
    (hasData : Bool) : SignedRequest :=
  let wmd := b64encode (hmacSha1 WMD_KEY (url.take 255 ++ toString ts))
  { url := url,
    headers :=
      [("Authorization", "Bearer " ++ pyStr authToken),
       ("WEV-device-Id", pyStr deviceId)] ++
      (if hasData then [("Content-Type", "application/json")] else []),
    query :=
      [("appId", "be4d79eb8fc7bd008ee82c8ec4ff6fd4"), ("language", "en"),
       ("platform", "WEB"), ("wpf", "pc"),
       ("wmsgpad", toString ts), ("wmd", wmd)] }

/-- Stored authentication state of `WeverseIE` (`_AUTH_TOKEN`). -/
structure AuthState where
  authToken : Option String
  deriving DecidableEq, Repr

/-- Model of `WeverseIE._check_auth`: an already-truthy `_AUTH_TOKEN` wins;
otherwise a present `we2_access_token` cookie (a `Morsel` is truthy whenever
present) stores its value and authenticates. -/
def check_auth (st : AuthState) (cookie : Option String) : AuthState × Bool :=
  if truthyOptStr st.authToken then (st, true)
  else
    match cookie with
    | some v => ({ authToken := some v }, true)
    | Option.none => (st, false)

/-- Failure modes of `WeverseIE._perform_login`. -/
inductive LoginError
  | loginRequired (msg : String)
  | accessDenied (msg : String)
  deriving DecidableEq, Repr

/-- Successful outcome of `WeverseIE._perform_login`: the new state and the
number of account API requests that were issued. -/
structure LoginResult where
  state : AuthState
  accountApiCalls : Nat
  deriving DecidableEq, Repr

/-- Model of `WeverseIE._perform_login`.  `hasPassword` is the truthiness of
the `hasPassword` field of the username-status response; `accessToken` is the
`accessToken` field of the credential response (`none` when absent). -/
def perform_login (st : AuthState) (cookie : Option String)
    (hasPassword : Bool) (accessToken : Option String) :
    Except LoginError LoginResult :=
  let checked := check_auth st cookie
  if checked.2 then Except.ok { state := checked.1, accountApiCalls := 0 }
  else if !hasPassword then
    Except.error (LoginError.loginRequired "Invalid username provided")
  else if truthyOptStr accessToken then
    Except.ok { state := { authToken := accessToken }, accountApiCalls := 2 }
  else Except.error (LoginError.accessDenied "Access denied. Wrong password?")

/-- Record returned by `WeverseIE._real_extract`: a dict literal whose keys
come straight from the source; metadata values are opaque. -/
def weverse_result (videoId : String)
    (title description uploader uploaderId timestamp releaseTimestamp
      duration thumbnail : InfoVal)
    (formats : List WrestleUniverse.HlsFormat) : List (String × InfoVal) :=
  [("id", InfoVal.vstr videoId),
   ("title", title),
   ("description", description),
   ("uploader", uploader),
   ("uploader_id", uploaderId),
   ("timestamp", timestamp),
   ("release_timestamp", releaseTimestamp),
   ("duration", duration),
   ("thumbnail", thumbnail),
   ("formats", InfoVal.vformats formats)]

end Weverse

namespace Go

/-- Record returned by the single-video path of `GoIE._real_extract`: a dict
literal; `videoId` is `video_data['id']`, the identifier resolved from the
API data. -/
def go_result (videoId : String)
    (title description duration ageLimit episodeNumber series seasonNumber
      thumbnails subtitles timestamp : InfoVal)
    (formats : List WrestleUniverse.HlsFormat) : List (String × InfoVal) :=
  [("id", InfoVal.vstr videoId),
   ("title", title),
   ("description", description),
   ("duration", duration),
   ("age_limit", ageLimit),
   ("episode_number", episodeNumber),
   ("series", series),
   ("season_number", seasonNumber),
   ("thumbnails", thumbnails),
   ("formats", InfoVal.vformats formats),
   ("subtitles", subtitles),
   ("timestamp", timestamp)]

end Go

namespace Vimeo

/-- Fields of the `https://vimeo.com/_rv/viewer` response that
`_refresh_tokens` reads. -/
structure ViewerResponse where
  jwt : String
  xsrft : String
  vuid : String
  deriving DecidableEq, Repr

/-- Stored session state of `VimeoBaseIE`: the `vuid` cookie
(`_has_session`), `_JSON_WEB_TOKEN`, `_XSRF_TOKEN` and `_TOKEN_EXPIRY`
(class default `0`). -/
structure SessionState where
  hasVuidCookie : Bool
  jsonWebToken : Option String
  xsrfToken : Option String
  tokenExpiry : Int
  deriving DecidableEq, Repr

/-- Model of `VimeoBaseIE._has_session`. -/
def has_session (st : SessionState) : Bool := st.hasVuidCookie

/-- Model of `VimeoBaseIE._refresh_tokens`.  `expOf` abstracts
`traverse_obj(jwt_decode_hs256(jwt), ('exp', {int_or_none}))`; the Python
test `if not self._TOKEN_EXPIRY` is falsy for `None` and `0`.  The returned
flag records whether the viewer endpoint was contacted. -/
def refresh_tokens (expOf : String → Option Int) (now : Int)
    (viewer : ViewerResponse) (st : SessionState) :
    Except String (SessionState × Bool) :=
  if has_session st ∧ st.tokenExpiry > now then Except.ok (st, false)
  else
    match expOf viewer.jwt with
    | Option.none => Except.error "There was a problem with the token cookie"
    | some e =>
      if e = 0 then Except.error "There was a problem with the token cookie"
      else
        Except.ok
          ({ hasVuidCookie := true, jsonWebToken := some viewer.jwt,
             xsrfToken := some viewer.xsrft, tokenExpiry := e }, true)

/-- Request issued by `VimeoBaseIE._call_api` after the token refresh. -/
structure VimeoApiRequest where
  url : String
  authHeader : String
  query : List (String × String)
  deriving DecidableEq, Repr

/-- Model of `VimeoBaseIE._call_api`: refresh the tokens, then request
`https://api.vimeo.com/{path}` with the JWT in the `Authorization` header. -/
def call_api (expOf : String → Option Int) (now : Int) (viewer : ViewerResponse)
    (st : SessionState) (path : String) (query : List (String × String)) :
    Except String (SessionState × Bool × VimeoApiRequest) :=
  match refresh_tokens expOf now viewer st with
  | Except.error e => Except.error e
  | Except.ok (st2, made) =>
    Except.ok (st2, made,
      { url := "https://api.vimeo.com/" ++ path,
        authHeader := "jwt " ++ st2.jsonWebToken.getD "",
        query := query })

/-- Page size of `VimeoAlbumIE`. -/
def PAGE_SIZE : Nat := 100

/-- Entries of the album-videos API response that `_fetch_page` reads. -/
structure VideoEntry where
  link : Option String
  uri : Option String
  deriving DecidableEq, Repr

/-- Query assembled by `VimeoAlbumIE._fetch_page` (the `_hashed_pass`
parameter is added only when `hashed_pass` is truthy). -/
structure PageQuery where
  fields : String
  page : Nat
  per_page : Nat
  hashedPass : Option String
  deriving DecidableEq, Repr

/-- Model of the query construction in `VimeoAlbumIE._fetch_page`. -/
def fetch_page_query (hashedPass : Option String) (page : Nat) : PageQuery :=
  { fields := "link,uri", page := page + 1, per_page := PAGE_SIZE,
    hashedPass :=
      match hashedPass with
      | some hp => if hp = "" then Option.none else some hp
      | Option.none => Option.none }

/-- Shape of the album record read by `VimeoAlbumIE._get_album_info`. -/
structure AlbumInfo where
  privacyView : Option String
  name : Option String
  description : Option String
  deriving DecidableEq, Repr

/-- Hashed-pass part of `VimeoAlbumIE._get_album_info`: a hashed pass is
fetched from the showcase auth endpoint exactly when
`traverse_obj(album, ('privacy', 'view')) == 'password'`. -/
def get_album_hashed_pass (album : AlbumInfo) (authHashedPass : String) :
    Option String :=
  if album.privacyView = some "password" then some authHashedPass
  else Option.none

/-- Outcome of the album-videos API call inside `_fetch_page`: the `data`
list, an `ExtractorError` whose cause is an `HTTPError` with a status code,
or any other propagating error. -/
inductive ApiOutcome
  | success (videos : List VideoEntry)
  | httpError (code : Nat)
  | otherError (msg : String)
  deriving DecidableEq, Repr

/-- Playlist entry yielded by `_fetch_page` via `url_result`. -/
structure Entry where
  url : String
  videoId : String
  deriving DecidableEq, Repr

/-- Model of `VimeoAlbumIE._fetch_page` after the request: HTTP 400 ends the
generator (no entries, no error), other errors propagate, and each video
with a truthy `link` yields one entry.  `matchVideoId` abstracts
`self._match_id(uri).group('video_id')`. -/
def fetch_page (matchVideoId : String → String) (api : ApiOutcome) :
    Except String (List Entry) :=
  match api with
  | ApiOutcome.success videos =>
    Except.ok (videos.filterMap fun v =>
      match v.link with
      | Option.none => Option.none
      | some l =>
        if l = "" then Option.none
        else some { url := l, videoId := matchVideoId (v.uri.getD "") })
  | ApiOutcome.httpError c =>
    if c = 400 then Except.ok [] else Except.error "http error"
  | ApiOutcome.otherError m => Except.error m

end Vimeo

/-- C1: every request built by `WeverseIE._call_api` carries a `wmd` query
parameter equal to the base64 encoding of the HMAC-SHA1, under the embedded
key, of the first 255 characters of the URL concatenated with the
millisecond timestamp, and a `wmsgpad` query parameter equal to that same
timestamp. -/
theorem C1_weverse_hmac_signing (hmacSha1 : String → String → List Nat)
    (b64encode : List Nat → String) (authToken deviceId : Option String)
    (url : String) (ts : Nat) (hasData : Bool) :
    qget (Weverse.call_api hmacSha1 b64encode authToken deviceId url ts
        hasData).query "wmd" =
      some (b64encode (hmacSha1 Weverse.WMD_KEY (url.take 255 ++ toString ts))) ∧
    qget (Weverse.call_api hmacSha1 b64encode authToken deviceId url ts
        hasData).query "wmsgpad" = some (toString ts) := by
  exact ⟨rfl, rfl⟩

/-- C3: `WrestleUniversePPVIE._call_public_key_api` generates a 2048-bit RSA
key pair, sends the base64 of the DER export of its public key as the
`token` field with `method = 1` on the authenticated `:watchArchive` route,
and returns a decrypt function mapping `None`/empty input to `None`,
returning the RSA-OAEP(SHA-1) decryption of the base64-decoded input
otherwise, and failing with `Could not decrypt data` when base64 decoding or
RSA decryption fails. -/
theorem C3_rsa_oaep_key_exchange (generate : Nat → WrestleUniverse.RsaKeyPair)
    (b64encode : List Nat → String) (b64decode : String → Option (List Nat))
    (videoId : String) :
    (WrestleUniverse.call_public_key_api generate b64encode b64decode
        videoId).1.token = b64encode (generate 2048).publicKeyDer ∧
    (WrestleUniverse.call_public_key_api generate b64encode b64decode
        videoId).1.method = 1 ∧
    (WrestleUniverse.call_public_key_api generate b64encode b64decode
        videoId).1.param = ":watchArchive" ∧
    (WrestleUniverse.call_public_key_api generate b64encode b64decode
        videoId).1.auth = true ∧
    (WrestleUniverse.call_public_key_api generate b64encode b64decode
        videoId).2 Option.none = Except.ok Option.none ∧
    (WrestleUniverse.call_public_key_api generate b64encode b64decode
        videoId).2 (some "") = Except.ok Option.none ∧
    (∀ s, s ≠ "" → b64decode s = Option.none →
      (WrestleUniverse.call_public_key_api generate b64encode b64decode
          videoId).2 (some s) = Except.error "Could not decrypt data") ∧
    (∀ s bs, s ≠ "" → b64decode s = some bs →
      (generate 2048).oaepSha1Decrypt bs = Option.none →
      (WrestleUniverse.call_public_key_api generate b64encode b64decode
          videoId).2 (some s) = Except.error "Could not decrypt data") ∧
    (∀ s bs out, s ≠ "" → b64decode s = some bs →
      (generate 2048).oaepSha1Decrypt bs = some out →
      (WrestleUniverse.call_public_key_api generate b64encode b64decode
          videoId).2 (some s) = Except.ok (some out)) := by
  refine ⟨rfl, rfl, rfl, rfl, rfl, rfl, ?_, ?_, ?_⟩
  · intro s hs hb
    simp [WrestleUniverse.call_public_key_api, WrestleUniverse.decrypt, hs, hb]
  · intro s bs hs hb ho
    simp [WrestleUniverse.call_public_key_api, WrestleUniverse.decrypt, hs, hb, ho]
  · intro s bs out hs hb ho
    simp [WrestleUniverse.call_public_key_api, WrestleUniverse.decrypt, hs, hb, ho]

/-- C3 witness: concrete key pair and codec functions exercising the success
path and the decrypt-function edge cases through the theorem. -/
theorem C3_rsa_oaep_key_exchange_witness :
    (WrestleUniverse.call_public_key_api (fun _ => ⟨[7, 8], fun _ => some "plain"⟩)
        (fun _ => "TOKEN") (fun _ => some [3]) "vid").1.token = "TOKEN" ∧
    (WrestleUniverse.call_public_key_api (fun _ => ⟨[7, 8], fun _ => some "plain"⟩)
        (fun _ => "TOKEN") (fun _ => some [3]) "vid").2 (some "abc") =
      Except.ok (some "plain") ∧
    (WrestleUniverse.call_public_key_api (fun _ => ⟨[7, 8], fun _ => some "plain"⟩)
        (fun _ => "TOKEN") (fun _ => Option.none) "vid").2 (some "abc") =
      Except.error "Could not decrypt data" := by
  refine ⟨?_, ?_, ?_⟩
  · exact (C3_rsa_oaep_key_exchange (fun _ => ⟨[7, 8], fun _ => some "plain"⟩)
      (fun _ => "TOKEN") (fun _ => some [3]) "vid").1
  · exact (C3_rsa_oaep_key_exchange (fun _ => ⟨[7, 8], fun _ => some "plain"⟩)
      (fun _ => "TOKEN") (fun _ => some [3]) "vid").2.2.2.2.2.2.2.2 "abc" [3] "plain"
      (by decide) rfl rfl
  · exact (C3_rsa_oaep_key_exchange (fun _ => ⟨[7, 8], fun _ => some "plain"⟩)
      (fun _ => "TOKEN") (fun _ => Option.none) "vid").2.2.2.2.2.2.1 "abc"
      (by decide) rfl

/-- C10: `WrestleUniverseBaseIE._download_metadata` never propagates a
metadata API failure: a truthy API response is returned as is (no webpage
fetch), and a failed or empty API response falls back to the Next.js page
data, defaulting to the empty dict, so the result is always a dict whenever
the fallback page fetch itself succeeds. -/
theorem C10_metadata_fallback_total (apiMetadata : Option (List (String × String)))
    (pageFallback : Except String (Option (List (String × String))))
    (lk : Option (List (String × String))) :
    (pageFallback = Except.ok lk →
      ∃ d, WrestleUniverse.download_metadata apiMetadata pageFallback =
        Except.ok d) ∧
    (∀ m, apiMetadata = some m → m ≠ [] →
      WrestleUniverse.download_metadata apiMetadata pageFallback = Except.ok m) ∧
    (WrestleUniverse.download_metadata Option.none (Except.ok lk) =
      Except.ok (lk.getD [])) := by
  refine ⟨?_, ?_, rfl⟩
  · rintro rfl
    cases apiMetadata with
    | none => exact ⟨lk.getD [], rfl⟩
    | some m =>
      cases m with
      | nil => exact ⟨lk.getD [], rfl⟩
      | cons x xs => exact ⟨x :: xs, rfl⟩
  · rintro m rfl hm
    cases m with
    | nil => exact absurd rfl hm
    | cons x xs => rfl

/-- C10 witness: a failed metadata API call with a successful page fetch
yields the fallback dict, and a truthy API response is returned unchanged. -/
theorem C10_metadata_fallback_total_witness :
    (∃ d, WrestleUniverse.download_metadata Option.none
        (Except.ok (some [("k", "v")])) = Except.ok d) ∧
    WrestleUniverse.download_metadata (some [("a", "b")])
        (Except.error "page failed") = Except.ok [("a", "b")] := by
  refine ⟨?_, ?_⟩
  · exact (C10_metadata_fallback_total Option.none (Except.ok (some [("k", "v")]))
      (some [("k", "v")])).1 rfl
  · exact (C10_metadata_fallback_total (some [("a", "b")]) (Except.error "page failed")
      Option.none).2.1 [("a", "b")] rfl (by decide)

/-- C4 counterexample: with a token cookie whose JWT has the integer claim
`exp = 0` and current time `5`, the claim predicts the expired-token error
(`exp` reads as an integer and `0 ≤ 5`), but `_raise_proper_auth_error`
reports the token-cookie problem instead, because `if not exp` is also taken
for `0`. -/
theorem C4_auth_error_counterexample :
    (fun _ : String => some (0 : Int)) "tok" = some 0 ∧ ((0 : Int) ≤ 5) ∧
    WrestleUniverse.raise_proper_auth_error (fun _ => some 0) (some "tok") 5 =
      WrestleUniverse.AuthError.tokenProblem ∧
    WrestleUniverse.raise_proper_auth_error (fun _ => some 0) (some "tok") 5 ≠
      WrestleUniverse.AuthError.expiredToken := by
  refine ⟨rfl, by decide, rfl, by decide⟩

/-- C4 amended: when the watch response has no truthy `canWatch`, both
extractors raise `_raise_proper_auth_error`, whose message is determined by
the token cookie's JWT: token problem when the `exp` claim cannot be read as
an integer or is zero, expired token when it is a nonzero integer at most
the current time, no access when it is a nonzero integer beyond the current
time; an absent or empty token cookie raises login-required instead. -/
theorem C4_auth_error_discrimination (expOf : String → Option Int)
    (cookie : Option String) (now : Int) :
    (cookie = Option.none ∨ cookie = some "" →
      WrestleUniverse.raise_proper_auth_error expOf cookie now =
        WrestleUniverse.AuthError.loginRequired) ∧
    (∀ tok, cookie = some tok → tok ≠ "" →
      (expOf tok = Option.none ∨ expOf tok = some 0 →
        WrestleUniverse.raise_proper_auth_error expOf cookie now =
          WrestleUniverse.AuthError.tokenProblem) ∧
      (∀ e, expOf tok = some e → e ≠ 0 → e ≤ now →
        WrestleUniverse.raise_proper_auth_error expOf cookie now =
          WrestleUniverse.AuthError.expiredToken) ∧
      (∀ e, expOf tok = some e → e ≠ 0 → now < e →
        WrestleUniverse.raise_proper_auth_error expOf cookie now =
          WrestleUniverse.AuthError.noAccess)) ∧
    (∀ vod : WrestleUniverse.VodWatchData, vod.canWatch = false →
      WrestleUniverse.vod_check_watch expOf cookie now vod =
        Except.error (WrestleUniverse.raise_proper_auth_error expOf cookie now)) ∧
    (∀ (b64decode : String → Option (List Nat))
        (oaepDecrypt : List Nat → Option String) (urlOk : String → Bool)
        (ppv : WrestleUniverse.PpvWatchData)
        (rawFormats : List WrestleUniverse.HlsFormat) (videoId : String),
      ppv.canWatch = false →
      WrestleUniverse.ppv_real_extract_tail b64decode oaepDecrypt expOf cookie
          now urlOk ppv rawFormats videoId =
        Except.error (WrestleUniverse.ExtractError.auth
          (WrestleUniverse.raise_proper_auth_error expOf cookie now))) := by
  refine ⟨?_, ?_, ?_, ?_⟩
  · rintro (rfl | rfl) <;>
      simp [WrestleUniverse.raise_proper_auth_error,
        WrestleUniverse.get_token_cookie]
  · rintro tok rfl htok
    refine ⟨?_, ?_, ?_⟩
    · rintro (hexp | hexp) <;>
        simp [WrestleUniverse.raise_proper_auth_error,
          WrestleUniverse.get_token_cookie, htok, hexp]
    · intro e hexp he hle
      simp [WrestleUniverse.raise_proper_auth_error,
        WrestleUniverse.get_token_cookie, htok, hexp, he, hle]
    · intro e hexp he hgt
      simp [WrestleUniverse.raise_proper_auth_error,
        WrestleUniverse.get_token_cookie, htok, hexp, he, not_le.mpr hgt]
  · intro vod hw
    simp [WrestleUniverse.vod_check_watch, hw]
  · intro b64decode oaepDecrypt urlOk ppv rawFormats videoId hw
    simp [WrestleUniverse.ppv_real_extract_tail, hw]

/-- C4 amended witness: the four discriminated outcomes at concrete inputs,
derived from the discrimination theorem. -/
theorem C4_auth_error_discrimination_witness :
    WrestleUniverse.raise_proper_auth_error (fun _ => some 10) (some "tok") 3 =
      WrestleUniverse.AuthError.noAccess ∧
    WrestleUniverse.raise_proper_auth_error (fun _ => some 2) (some "tok") 3 =
      WrestleUniverse.AuthError.expiredToken ∧
    WrestleUniverse.raise_proper_auth_error (fun _ => Option.none) (some "tok") 3 =
      WrestleUniverse.AuthError.tokenProblem ∧
    WrestleUniverse.raise_proper_auth_error (fun _ => some 2) Option.none 3 =
      WrestleUniverse.AuthError.loginRequired ∧
    WrestleUniverse.vod_check_watch (fun _ => some 2) (some "tok") 3
        { canWatch := false, protocolHlsUrl := Option.none, chromecastUrls := [] } =
      Except.error WrestleUniverse.AuthError.expiredToken := by
  refine ⟨?_, ?_, ?_, ?_, ?_⟩
  · exact ((C4_auth_error_discrimination (fun _ => some 10) (some "tok") 3).2.1
      "tok" rfl (by decide)).2.2 10 rfl (by decide) (by decide)
  · exact ((C4_auth_error_discrimination (fun _ => some 2) (some "tok") 3).2.1
      "tok" rfl (by decide)).2.1 2 rfl (by decide) (by decide)
  · exact ((C4_auth_error_discrimination (fun _ => Option.none) (some "tok") 3).2.1
      "tok" rfl (by decide)).1 (Or.inl rfl)
  · exact (C4_auth_error_discrimination (fun _ => some 2) Option.none 3).1
      (Or.inl rfl)
  · have h := (C4_auth_error_discrimination (fun _ => some 2) (some "tok") 3).2.2.1
      { canWatch := false, protocolHlsUrl := Option.none, chromecastUrls := [] } rfl
    have he := ((C4_auth_error_discrimination (fun _ => some 2) (some "tok") 3).2.1
      "tok" rfl (by decide)).2.1 2 rfl (by decide) (by decide)
    rw [h, he]

/-- C8: `WeverseIE._perform_login` returns without contacting the account API
when a token is already stored or the `we2_access_token` cookie is present
(taking the token from the cookie when not already set); otherwise it raises
login-required when the username-status response lacks a truthy
`hasPassword`, raises the expected access-denied error when the credential
response lacks a truthy `accessToken`, and stores the returned token on
success. -/
theorem C8_weverse_login (st : Weverse.AuthState) (cookie : Option String)
    (hasPassword : Bool) (accessToken : Option String) :
    (truthyOptStr st.authToken = true →
      Weverse.perform_login st cookie hasPassword accessToken =
        Except.ok { state := st, accountApiCalls := 0 }) ∧
    (truthyOptStr st.authToken = false → ∀ v, cookie = some v →
      Weverse.perform_login st cookie hasPassword accessToken =
        Except.ok { state := { authToken := some v }, accountApiCalls := 0 }) ∧
    (truthyOptStr st.authToken = false → cookie = Option.none →
      (hasPassword = false →
        Weverse.perform_login st cookie hasPassword accessToken =
          Except.error (Weverse.LoginError.loginRequired
            "Invalid username provided")) ∧
      (hasPassword = true → truthyOptStr accessToken = false →
        Weverse.perform_login st cookie hasPassword accessToken =
          Except.error (Weverse.LoginError.accessDenied
            "Access denied. Wrong password?")) ∧
      (hasPassword = true → truthyOptStr accessToken = true →
        Weverse.perform_login st cookie hasPassword accessToken =
          Except.ok { state := { authToken := accessToken },
                      accountApiCalls := 2 })) := by
  refine ⟨?_, ?_, ?_⟩
  · intro ht
    simp [Weverse.perform_login, Weverse.check_auth, ht]
  · rintro ht v rfl
    simp [Weverse.perform_login, Weverse.check_auth, ht]
  · rintro ht rfl
    refine ⟨?_, ?_, ?_⟩
    · rintro rfl
      simp [Weverse.perform_login, Weverse.check_auth, ht]
    · rintro rfl hat
      simp [Weverse.perform_login, Weverse.check_auth, ht, hat]
    · rintro rfl hat
      simp [Weverse.perform_login, Weverse.check_auth, ht, hat]

/-- C8 witness: the login short-circuit, the cookie path and the three
account-API outcomes at concrete inputs, derived from the theorem. -/
theorem C8_weverse_login_witness :
    Weverse.perform_login { authToken := some "tk" } Option.none true
        Option.none = Except.ok ⟨⟨some "tk"⟩, 0⟩ ∧
    Weverse.perform_login { authToken := Option.none } (some "ck") false
        Option.none = Except.ok ⟨⟨some "ck"⟩, 0⟩ ∧
    Weverse.perform_login { authToken := Option.none } Option.none false
        Option.none = Except.error (Weverse.LoginError.loginRequired
          "Invalid username provided") ∧
    Weverse.perform_login { authToken := Option.none } Option.none true
        Option.none = Except.error (Weverse.LoginError.accessDenied
          "Access denied. Wrong password?") ∧
    Weverse.perform_login { authToken := Option.none } Option.none true
        (some "at") = Except.ok ⟨⟨some "at"⟩, 2⟩ := by
  refine ⟨?_, ?_, ?_, ?_, ?_⟩
  · exact (C8_weverse_login { authToken := some "tk" } Option.none true
      Option.none).1 (by decide)
  · exact (C8_weverse_login { authToken := Option.none } (some "ck") false
      Option.none).2.1 (by decide) "ck" rfl
  · exact ((C8_weverse_login { authToken := Option.none } Option.none false
      Option.none).2.2 (by decide) rfl).1 rfl
  · exact ((C8_weverse_login { authToken := Option.none } Option.none true
      Option.none).2.2 (by decide) rfl).2.1 rfl (by decide)
  · exact ((C8_weverse_login { authToken := Option.none } Option.none true
      (some "at")).2.2 (by decide) rfl).2.2 rfl (by decide)

/-- C2 counterexample: with no vimeo session and a viewer JWT whose `exp`
claim reads as the integer `0`, the claim predicts a successful refresh that
sets `_TOKEN_EXPIRY` to `0` (the claim reserves the error for an absent or
non-integer `exp`), but `_refresh_tokens` raises the `ExtractorError`
instead, because `if not self._TOKEN_EXPIRY` is also taken for `0`. -/
theorem C2_vimeo_refresh_counterexample :
    (fun _ : String => some (0 : Int)) "J" = some 0 ∧
    Vimeo.refresh_tokens (fun _ => some 0) 10 ⟨"J", "X", "V"⟩
        ⟨false, Option.none, Option.none, 0⟩ =
      Except.error "There was a problem with the token cookie" := by
  exact ⟨rfl, rfl⟩

/-- C2 amended: `VimeoBaseIE._refresh_tokens` returns without a network
request and with the state unchanged when the vuid session cookie is present
and the stored expiry is strictly in the future; otherwise it contacts the
viewer endpoint, stores the JWT and XSRF token and sets the expiry to the
decoded JWT's `exp` claim, raising an `ExtractorError` when that claim is
absent, not readable as an integer, or zero; and `VimeoBaseIE._call_api`
performs the refresh before the request and sends the JWT in the
`Authorization` header. -/
theorem C2_vimeo_token_refresh (expOf : String → Option Int) (now : Int)
    (viewer : Vimeo.ViewerResponse) (st : Vimeo.SessionState) (path : String)
    (query : List (String × String)) :
    (Vimeo.has_session st = true → st.tokenExpiry > now →
      Vimeo.refresh_tokens expOf now viewer st = Except.ok (st, false)) ∧
    (¬(Vimeo.has_session st = true ∧ st.tokenExpiry > now) →
      (expOf viewer.jwt = Option.none ∨ expOf viewer.jwt = some 0 →
        Vimeo.refresh_tokens expOf now viewer st =
          Except.error "There was a problem with the token cookie") ∧
      (∀ e, expOf viewer.jwt = some e → e ≠ 0 →
        Vimeo.refresh_tokens expOf now viewer st =
          Except.ok ({ hasVuidCookie := true,
                       jsonWebToken := some viewer.jwt,
                       xsrfToken := some viewer.xsrft,
                       tokenExpiry := e }, true))) ∧
    (∀ st2 made req,
      Vimeo.call_api expOf now viewer st path query =
          Except.ok (st2, made, req) →
      Vimeo.refresh_tokens expOf now viewer st = Except.ok (st2, made) ∧
      req.authHeader = "jwt " ++ st2.jsonWebToken.getD "" ∧
      req.url = "https://api.vimeo.com/" ++ path ∧ req.query = query) := by
  refine ⟨?_, ?_, ?_⟩
  · intro h1 h2
    simp [Vimeo.refresh_tokens, h1, h2]
  · intro hno
    refine ⟨?_, ?_⟩
    · rintro (hexp | hexp) <;> simp [Vimeo.refresh_tokens, hno, hexp]
    · intro e hexp he
      simp [Vimeo.refresh_tokens, hno, hexp, he]
  · intro st2 made req hcall
    unfold Vimeo.call_api at hcall
    cases hr : Vimeo.refresh_tokens expOf now viewer st with
    | error e => rw [hr] at hcall; cases hcall
    | ok p =>
      obtain ⟨p1, p2⟩ := p
      rw [hr] at hcall
      simp only [Except.ok.injEq, Prod.mk.injEq] at hcall
      obtain ⟨h1, h2, h3⟩ := hcall
      subst h1 h2 h3
      exact ⟨rfl, rfl, rfl, rfl⟩

/-- C2 witness: the short-circuit path, the failures on an unreadable and on
a zero `exp` claim, the success path, and the `_call_api` composition at
concrete inputs, derived from the theorem. -/
theorem C2_vimeo_token_refresh_witness :
    Vimeo.refresh_tokens (fun _ => some 99) 10
        ⟨"J", "X", "V"⟩ ⟨true, some "J0", some "X0", 50⟩ =
      Except.ok (⟨true, some "J0", some "X0", 50⟩, false) ∧
    Vimeo.refresh_tokens (fun _ => Option.none) 10
        ⟨"J", "X", "V"⟩ ⟨false, Option.none, Option.none, 0⟩ =
      Except.error "There was a problem with the token cookie" ∧
    Vimeo.refresh_tokens (fun _ => some 0) 10
        ⟨"J", "X", "V"⟩ ⟨false, Option.none, Option.none, 0⟩ =
      Except.error "There was a problem with the token cookie" ∧
    Vimeo.refresh_tokens (fun _ => some 99) 10
        ⟨"J", "X", "V"⟩ ⟨false, Option.none, Option.none, 0⟩ =
      Except.ok (⟨true, some "J", some "X", 99⟩, true) ∧
    (Vimeo.call_api (fun _ => some 99) 10 ⟨"J", "X", "V"⟩
        ⟨false, Option.none, Option.none, 0⟩ "albums/1/videos" [] =
      Except.ok (⟨true, some "J", some "X", 99⟩, true,
        { url := "https://api.vimeo.com/albums/1/videos",
          authHeader := "jwt J", query := [] }) →
      Vimeo.refresh_tokens (fun _ => some 99) 10 ⟨"J", "X", "V"⟩
          ⟨false, Option.none, Option.none, 0⟩ =
        Except.ok (⟨true, some "J", some "X", 99⟩, true)) := by
  refine ⟨?_, ?_, ?_, ?_, ?_⟩
  · exact (C2_vimeo_token_refresh (fun _ => some 99) 10 ⟨"J", "X", "V"⟩
      ⟨true, some "J0", some "X0", 50⟩ "p" []).1 rfl (by decide)
  · exact ((C2_vimeo_token_refresh (fun _ => Option.none) 10 ⟨"J", "X", "V"⟩
      ⟨false, Option.none, Option.none, 0⟩ "p" []).2.1 (by decide)).1
      (Or.inl rfl)
  · exact ((C2_vimeo_token_refresh (fun _ => some 0) 10 ⟨"J", "X", "V"⟩
      ⟨false, Option.none, Option.none, 0⟩ "p" []).2.1 (by decide)).1
      (Or.inr rfl)
  · exact ((C2_vimeo_token_refresh (fun _ => some 99) 10 ⟨"J", "X", "V"⟩
      ⟨false, Option.none, Option.none, 0⟩ "p" []).2.1 (by decide)).2 99 rfl
      (by decide)
  · intro hcall
    exact ((C2_vimeo_token_refresh (fun _ => some 99) 10 ⟨"J", "X", "V"⟩
      ⟨false, Option.none, Option.none, 0⟩ "albums/1/videos" []).2.2 _ _ _
      hcall).1

/-- C5: `VimeoAlbumIE._fetch_page` requests API page `p + 1` with
`per_page = _PAGE_SIZE = 100`, the `_hashed_pass` parameter is present
exactly when the album is password-protected, each returned video with a
non-empty `link` yields one playlist entry, an HTTP 400 ends the generator
without raising, and any other error propagates. -/
theorem C5_album_pagination (matchVideoId : String → String)
    (hashedPass : Option String) (page : Nat)
    (videos : List Vimeo.VideoEntry) (album : Vimeo.AlbumInfo)
    (authHashedPass : String) (code : Nat) (msg : String) :
    ((Vimeo.fetch_page_query hashedPass page).page = page + 1 ∧
     (Vimeo.fetch_page_query hashedPass page).per_page = Vimeo.PAGE_SIZE ∧
     Vimeo.PAGE_SIZE = 100) ∧
    (authHashedPass ≠ "" →
      ((Vimeo.fetch_page_query
          (Vimeo.get_album_hashed_pass album authHashedPass) page).hashedPass =
            some authHashedPass ↔
        album.privacyView = some "password")) ∧
    (Vimeo.fetch_page matchVideoId (Vimeo.ApiOutcome.success videos) =
      Except.ok ((videos.filter fun v => truthyOptStr v.link).map fun v =>
        { url := v.link.getD "", videoId := matchVideoId (v.uri.getD "") })) ∧
    (Vimeo.fetch_page matchVideoId (Vimeo.ApiOutcome.httpError 400) =
      Except.ok []) ∧
    (code ≠ 400 →
      Vimeo.fetch_page matchVideoId (Vimeo.ApiOutcome.httpError code) =
        Except.error "http error") ∧
    (Vimeo.fetch_page matchVideoId (Vimeo.ApiOutcome.otherError msg) =
      Except.error msg) := by
  refine ⟨⟨rfl, rfl, rfl⟩, ?_, ?_, rfl, ?_, rfl⟩
  · intro hne
    by_cases hp : album.privacyView = some "password"
    · simp [Vimeo.get_album_hashed_pass, Vimeo.fetch_page_query, hp, hne]
    · simp [Vimeo.get_album_hashed_pass, Vimeo.fetch_page_query, hp]
  · simp only [Vimeo.fetch_page, Except.ok.injEq]
    induction videos with
    | nil => rfl
    | cons v vs ih =>
      cases hl : v.link with
      | none =>
        simp [List.filterMap_cons, List.filter_cons, truthyOptStr, hl, ih]
      | some l =>
        by_cases he : l = ""
        · subst he
          simp [List.filterMap_cons, List.filter_cons, truthyOptStr, hl, ih]
        · simp [List.filterMap_cons, List.filter_cons, truthyOptStr, hl, he, ih]
  · intro hc
    simp [Vimeo.fetch_page, hc]

/-- C5 witness: a concrete password-protected album query and a non-400
error, derived from the theorem. -/
theorem C5_album_pagination_witness :
    ((Vimeo.fetch_page_query
        (Vimeo.get_album_hashed_pass ⟨some "password", Option.none, Option.none⟩
          "hp") 3).hashedPass = some "hp" ↔
      (⟨some "password", Option.none, Option.none⟩ :
        Vimeo.AlbumInfo).privacyView = some "password") ∧
    Vimeo.fetch_page (fun _ => "v") (Vimeo.ApiOutcome.httpError 500) =
      Except.error "http error" := by
  refine ⟨?_, ?_⟩
  · exact (C5_album_pagination (fun _ => "v") Option.none 3 []
      ⟨some "password", Option.none, Option.none⟩ "hp" 500 "m").2.1 (by decide)
  · exact (C5_album_pagination (fun _ => "v") Option.none 3 []
      ⟨some "password", Option.none, Option.none⟩ "hp" 500 "m").2.2.2.2.1
      (by decide)

/-- Inversion helper: a successful run of the PPV extraction tail fixes
every field of the returned record. -/
theorem ppv_tail_ok_cases (b64decode : String → Option (List Nat))
    (oaepDecrypt : List Nat → Option String) (expOf : String → Option Int)
    (cookie : Option String) (now : Int) (urlOk : String → Bool)
    (videoData : WrestleUniverse.PpvWatchData)
    (rawFormats : List WrestleUniverse.HlsFormat) (videoId : String)
    (r : WrestleUniverse.PpvInfo)
    (h : WrestleUniverse.ppv_real_extract_tail b64decode oaepDecrypt expOf
        cookie now urlOk videoData rawFormats videoId = Except.ok r) :
    r.id = videoId ∧
    r.formats = WrestleUniverse.ppv_adjust_formats rawFormats ∧
    WrestleUniverse.decrypt b64decode oaepDecrypt
        (WrestleUniverse.hls_field videoData fun x => x.key) =
      Except.ok r.hls_aes_key ∧
    WrestleUniverse.decrypt b64decode oaepDecrypt
        (WrestleUniverse.hls_field videoData fun x => x.iv) =
      Except.ok r.hls_aes_iv ∧
    r.warned = (!truthyOptStr r.hls_aes_key &&
      decide ((WrestleUniverse.hls_encrypt_type videoData).getD 0 > 0)) := by
  cases hwatch : videoData.canWatch with
  | false => simp [WrestleUniverse.ppv_real_extract_tail, hwatch] at h
  | true =>
    cases hurl : WrestleUniverse.ppv_hls_url urlOk videoData with
    | none =>
      simp [WrestleUniverse.ppv_real_extract_tail, hwatch, hurl] at h
    | some u =>
      cases hk : WrestleUniverse.decrypt b64decode oaepDecrypt
          (WrestleUniverse.hls_field videoData fun x => x.key) with
      | error e =>
        simp [WrestleUniverse.ppv_real_extract_tail, hwatch, hurl, hk] at h
      | ok k =>
        cases hiv : WrestleUniverse.decrypt b64decode oaepDecrypt
            (WrestleUniverse.hls_field videoData fun x => x.iv) with
        | error e =>
          simp [WrestleUniverse.ppv_real_extract_tail, hwatch, hurl, hk,
            hiv] at h
        | ok ivv =>
          simp only [WrestleUniverse.ppv_real_extract_tail, hwatch, hurl, hk,
            hiv, Bool.not_true, Bool.false_eq_true, if_false,
            Except.ok.injEq] at h
          subst h
          exact ⟨rfl, rfl, rfl, rfl, rfl⟩

/-- C6: on every successful PPV extraction the returned `hls_aes_key` and
`hls_aes_iv` are exactly the decrypt-function results on the response's
`hls.key` and `hls.iv` (`None` when the field is absent), and when no key
was obtained while `hls.encryptType` is a positive integer the run still
succeeds and only sets the warning flag. -/
theorem C6_aes_key_passthrough (b64decode : String → Option (List Nat))
    (oaepDecrypt : List Nat → Option String) (expOf : String → Option Int)
    (cookie : Option String) (now : Int) (urlOk : String → Bool)
    (videoData : WrestleUniverse.PpvWatchData)
    (rawFormats : List WrestleUniverse.HlsFormat) (videoId : String)
    (r : WrestleUniverse.PpvInfo)
    (h : WrestleUniverse.ppv_real_extract_tail b64decode oaepDecrypt expOf
        cookie now urlOk videoData rawFormats videoId = Except.ok r) :
    WrestleUniverse.decrypt b64decode oaepDecrypt
        (WrestleUniverse.hls_field videoData fun x => x.key) =
      Except.ok r.hls_aes_key ∧
    WrestleUniverse.decrypt b64decode oaepDecrypt
        (WrestleUniverse.hls_field videoData fun x => x.iv) =
      Except.ok r.hls_aes_iv ∧
    (WrestleUniverse.hls_field videoData (fun x => x.key) = Option.none →
      r.hls_aes_key = Option.none) ∧
    (WrestleUniverse.hls_field videoData (fun x => x.iv) = Option.none →
      r.hls_aes_iv = Option.none) ∧
    (truthyOptStr r.hls_aes_key = false →
      (WrestleUniverse.hls_encrypt_type videoData).getD 0 > 0 →
      r.warned = true) ∧
    (truthyOptStr r.hls_aes_key = true → r.warned = false) := by
  obtain ⟨-, -, hk, hiv, hw⟩ := ppv_tail_ok_cases b64decode oaepDecrypt expOf
    cookie now urlOk videoData rawFormats videoId r h
  refine ⟨hk, hiv, ?_, ?_, ?_, ?_⟩
  · intro hnone
    rw [hnone] at hk
    have h2 : (Except.ok Option.none : Except String (Option String)) =
        Except.ok r.hls_aes_key := hk
    simpa using h2.symm
  · intro hnone
    rw [hnone] at hiv
    have h2 : (Except.ok Option.none : Except String (Option String)) =
        Except.ok r.hls_aes_iv := hiv
    simpa using h2.symm
  · intro ht henc
    rw [hw, ht]
    simp [henc]
  · intro ht
    rw [hw, ht]
    simp

/-- C6 witness: a concrete successful PPV extraction with an encrypted key
and an absent IV, derived from the theorem. -/
theorem C6_aes_key_passthrough_witness :
    WrestleUniverse.ppv_real_extract_tail (fun _ => some [1])
        (fun _ => some "aes") (fun _ => some 99) (some "tok") 5 (fun _ => true)
        ⟨true, some ⟨["u1"], [], some "K", Option.none, some 1⟩, [], []⟩
        [⟨"u", Option.none, some 9⟩] "vid" =
      Except.ok ⟨"vid", [⟨"u", Option.none, some 2⟩], some "aes", Option.none,
        false⟩ ∧
    WrestleUniverse.decrypt (fun _ => some [1]) (fun _ => some "aes")
        (WrestleUniverse.hls_field
          ⟨true, some ⟨["u1"], [], some "K", Option.none, some 1⟩, [], []⟩
          fun x => x.key) =
      Except.ok (some "aes") := by
  have h : WrestleUniverse.ppv_real_extract_tail (fun _ => some [1])
      (fun _ => some "aes") (fun _ => some 99) (some "tok") 5 (fun _ => true)
      ⟨true, some ⟨["u1"], [], some "K", Option.none, some 1⟩, [], []⟩
      [⟨"u", Option.none, some 9⟩] "vid" =
      Except.ok ⟨"vid", [⟨"u", Option.none, some 2⟩], some "aes", Option.none,
        false⟩ := by rfl
  refine ⟨h, ?_⟩
  exact (C6_aes_key_passthrough (fun _ => some [1]) (fun _ => some "aes")
    (fun _ => some 99) (some "tok") 5 (fun _ => true)
    ⟨true, some ⟨["u1"], [], some "K", Option.none, some 1⟩, [], []⟩
    [⟨"u", Option.none, some 9⟩] "vid" _ h).1

/-- C9: on every successful PPV extraction the returned formats are the raw
HLS formats with every truthy `tbr` replaced by its floor quotient by 4,
formats with `tbr` equal to 0 or absent being left unchanged. -/
theorem C9_ppv_bitrate_quartering (b64decode : String → Option (List Nat))
    (oaepDecrypt : List Nat → Option String) (expOf : String → Option Int)
    (cookie : Option String) (now : Int) (urlOk : String → Bool)
    (videoData : WrestleUniverse.PpvWatchData)
    (rawFormats : List WrestleUniverse.HlsFormat) (videoId : String)
    (r : WrestleUniverse.PpvInfo)
    (h : WrestleUniverse.ppv_real_extract_tail b64decode oaepDecrypt expOf
        cookie now urlOk videoData rawFormats videoId = Except.ok r) :
    r.formats = WrestleUniverse.ppv_adjust_formats rawFormats ∧
    (WrestleUniverse.ppv_adjust_formats rawFormats).length =
      rawFormats.length ∧
    ∀ i (hi : i < rawFormats.length)
        (hi2 : i < (WrestleUniverse.ppv_adjust_formats rawFormats).length),
      (∀ t, (rawFormats.get ⟨i, hi⟩).tbr = some t → t ≠ 0 →
        (WrestleUniverse.ppv_adjust_formats rawFormats).get ⟨i, hi2⟩ =
          { rawFormats.get ⟨i, hi⟩ with tbr := some (Int.fdiv t 4) }) ∧
      ((rawFormats.get ⟨i, hi⟩).tbr = some 0 →
        (WrestleUniverse.ppv_adjust_formats rawFormats).get ⟨i, hi2⟩ =
          rawFormats.get ⟨i, hi⟩) ∧
      ((rawFormats.get ⟨i, hi⟩).tbr = Option.none →
        (WrestleUniverse.ppv_adjust_formats rawFormats).get ⟨i, hi2⟩ =
          rawFormats.get ⟨i, hi⟩) := by
  obtain ⟨-, hf, -, -, -⟩ := ppv_tail_ok_cases b64decode oaepDecrypt expOf
    cookie now urlOk videoData rawFormats videoId r h
  refine ⟨hf, List.length_map _ _, ?_⟩
  intro i hi hi2
  have hg : (WrestleUniverse.ppv_adjust_formats rawFormats).get ⟨i, hi2⟩ =
      (match (rawFormats.get ⟨i, hi⟩).tbr with
       | some t =>
         if t ≠ 0 then
           { rawFormats.get ⟨i, hi⟩ with tbr := some (Int.fdiv t 4) }
         else rawFormats.get ⟨i, hi⟩
       | Option.none => rawFormats.get ⟨i, hi⟩) := by
    simp [WrestleUniverse.ppv_adjust_formats, List.get_eq_getElem,
      List.getElem_map]
  refine ⟨?_, ?_, ?_⟩
  · intro t ht hne
    rw [hg, ht]
    simp [hne]
  · intro ht
    rw [hg, ht]
    simp
  · intro ht
    rw [hg, ht]

/-- C9 witness: a concrete successful PPV extraction quartering a truthy
bitrate and leaving zero and absent bitrates unchanged, derived from the
theorem. -/
theorem C9_ppv_bitrate_quartering_witness :
    (WrestleUniverse.ppv_adjust_formats
        [⟨"a", Option.none, some 9⟩, ⟨"b", Option.none, some 0⟩,
         ⟨"c", Option.none, Option.none⟩]).get ⟨0, by decide⟩ =
      ⟨"a", Option.none, some 2⟩ ∧
    (WrestleUniverse.ppv_adjust_formats
        [⟨"a", Option.none, some 9⟩, ⟨"b", Option.none, some 0⟩,
         ⟨"c", Option.none, Option.none⟩]).get ⟨1, by decide⟩ =
      ⟨"b", Option.none, some 0⟩ ∧
    (WrestleUniverse.ppv_adjust_formats
        [⟨"a", Option.none, some 9⟩, ⟨"b", Option.none, some 0⟩,
         ⟨"c", Option.none, Option.none⟩]).get ⟨2, by decide⟩ =
      ⟨"c", Option.none, Option.none⟩ := by
  have h : WrestleUniverse.ppv_real_extract_tail (fun _ => some [1])
      (fun _ => some "aes") (fun _ => some 99) (some "tok") 5 (fun _ => true)
      ⟨true, some ⟨["u1"], [], some "K", Option.none, some 1⟩, [], []⟩
      [⟨"a", Option.none, some 9⟩, ⟨"b", Option.none, some 0⟩,
       ⟨"c", Option.none, Option.none⟩] "vid" =
      Except.ok ⟨"vid",
        [⟨"a", Option.none, some 2⟩, ⟨"b", Option.none, some 0⟩,
         ⟨"c", Option.none, Option.none⟩], some "aes", Option.none,
        false⟩ := by rfl
  have hc := C9_ppv_bitrate_quartering (fun _ => some [1]) (fun _ => some "aes")
    (fun _ => some 99) (some "tok") 5 (fun _ => true)
    ⟨true, some ⟨["u1"], [], some "K", Option.none, some 1⟩, [], []⟩
    [⟨"a", Option.none, some 9⟩, ⟨"b", Option.none, some 0⟩,
     ⟨"c", Option.none, Option.none⟩] "vid" _ h
  refine ⟨?_, ?_, ?_⟩
  · exact (hc.2.2 0 (by decide) (by decide)).1 9 rfl (by decide)
  · exact (hc.2.2 1 (by decide) (by decide)).2.1 rfl
  · exact (hc.2.2 2 (by decide) (by decide)).2.2 rfl

/-- Helper: merging entries that never write key `k` does not change the
lookup at `k`. -/
theorem dget_append_of_right_nil (a b : List (String × InfoVal)) (k : String)
    (hb : b.filter (fun p => p.1 = k) = []) : dget (a ++ b) k = dget a k := by
  unfold dget
  rw [List.filter_append, hb, List.append_nil]

/-- Helper: an info dict whose keys all come from a key list never writes a
key outside that list. -/
theorem info_filter_nil (info : List (String × InfoVal)) (k : String)
    (hk : k ∉ WrestleUniverse.vod_info_keys)
    (hinfo : ∀ p ∈ info, p.1 ∈ WrestleUniverse.vod_info_keys) :
    info.filter (fun p => p.1 = k) = [] := by
  rw [List.filter_eq_nil_iff]
  intro p hp
  simp only [decide_eq_true_eq]
  intro hpk
  exact hk (hpk ▸ hinfo p hp)

/-- C7: the records returned by the single-video extractors (Wrestle
Universe VOD, Weverse, Go) contain the key `id` holding the resolved video
identifier and the key `formats` holding the extracted formats; for the VOD
extractor this survives the `**info` metadata merge because the metadata
mapping only produces keys from its fixed key list. -/
theorem C7_common_record (vodId : String)
    (vodFormats : List WrestleUniverse.HlsFormat)
    (info : List (String × InfoVal))
    (hinfo : ∀ p ∈ info, p.1 ∈ WrestleUniverse.vod_info_keys)
    (wevId : String) (t d u ui ts rts dur th : InfoVal)
    (wevFormats : List WrestleUniverse.HlsFormat)
    (goId : String) (gt gd gdur gal gep gse gsn gth gsub gts : InfoVal)
    (goFormats : List WrestleUniverse.HlsFormat) :
    (dget (WrestleUniverse.vod_result vodId vodFormats info) "id" =
        some (InfoVal.vstr vodId) ∧
     dget (WrestleUniverse.vod_result vodId vodFormats info) "formats" =
        some (InfoVal.vformats vodFormats)) ∧
    (dget (Weverse.weverse_result wevId t d u ui ts rts dur th wevFormats)
        "id" = some (InfoVal.vstr wevId) ∧
     dget (Weverse.weverse_result wevId t d u ui ts rts dur th wevFormats)
        "formats" = some (InfoVal.vformats wevFormats)) ∧
    (dget (Go.go_result goId gt gd gdur gal gep gse gsn gth gsub gts goFormats)
        "id" = some (InfoVal.vstr goId) ∧
     dget (Go.go_result goId gt gd gdur gal gep gse gsn gth gsub gts goFormats)
        "formats" = some (InfoVal.vformats goFormats)) := by
  refine ⟨⟨?_, ?_⟩, ⟨rfl, rfl⟩, ⟨rfl, rfl⟩⟩
  · unfold WrestleUniverse.vod_result
    rw [dget_append_of_right_nil _ _ _
      (info_filter_nil info "id" (by decide) hinfo)]
    rfl
  · unfold WrestleUniverse.vod_result
    rw [dget_append_of_right_nil _ _ _
      (info_filter_nil info "formats" (by decide) hinfo)]
    rfl

/-- C7 witness: a concrete VOD record with a merged metadata entry keeps its
`id` and `formats` entries, derived from the theorem. -/
theorem C7_common_record_witness :
    dget (WrestleUniverse.vod_result "w1" [⟨"u", Option.none, some 3⟩]
        [("title", InfoVal.vstr "T")]) "id" = some (InfoVal.vstr "w1") ∧
    dget (WrestleUniverse.vod_result "w1" [⟨"u", Option.none, some 3⟩]
        [("title", InfoVal.vstr "T")]) "formats" =
      some (InfoVal.vformats [⟨"u", Option.none, some 3⟩]) := by
  have hc := C7_common_record "w1" [⟨"u", Option.none, some 3⟩]
    [("title", InfoVal.vstr "T")] (by decide)
    "x" InfoVal.vnull InfoVal.vnull InfoVal.vnull InfoVal.vnull InfoVal.vnull
    InfoVal.vnull InfoVal.vnull InfoVal.vnull []
    "g" InfoVal.vnull InfoVal.vnull InfoVal.vnull InfoVal.vnull InfoVal.vnull
    InfoVal.vnull InfoVal.vnull InfoVal.vnull InfoVal.vnull InfoVal.vnull []
  exact ⟨hc.1.1, hc.1.2⟩

end YtDlp
